import Mathlib

/-!
# Verification of the auto-pump controller (`src/main.py`)

Shallow embedding of the pump controller firmware: the `AutoPump` state
machine (mode switch / knob / button handlers and the periodic `_run` tick),
the `Pump` actuator, the telemetry helpers (`sendDatapoint`,
`_networkThread`), and the persisted calibration config.

Conventions of the embedding:
* MicroPython integers (`time.time()`, the encoder counter, loads, modes)
  become `Int`; Python `%` on a positive modulus agrees with `Int.emod`
  (Lean's `%` on `Int`), and Python `int(a/b)` (float divide then truncate
  toward zero) becomes `Int.tdiv` — exact for the magnitudes involved.
* The float expression `float(load)/self.AutoWaterLoad*100` becomes the
  same expression over `ℚ`.
* Hardware reads (switch position, knob deltas, clock, load samples) are
  inputs of the corresponding transition function.
* Mutation of `self` becomes explicit state passing on `AutoPumpState`;
  the persisted `/config.py` store is the `SavedConfig` field, the
  in-memory dict the `Config` field.
-/

/-- `SWITCH_AUTO = const(1)`: switch reading that selects auto mode. -/
def SWITCH_AUTO : Int := 1

/-- `DATA_RETRY_COUNT = const(3)`: attempt bound in `sendDatapoint`. -/
def DATA_RETRY_COUNT : Nat := 3

/-- `DATA_DELAY_SEC = const(15)`: telemetry cadence in seconds. -/
def DATA_DELAY_SEC : Int := 15

/-- `AUTO_READ_DELAY = const(30)`: minimum elapsed-time guard (seconds)
before the auto-completion load check. -/
def AUTO_READ_DELAY : Int := 30

/-- `DEFAULT_AUTO_PUMP_THRESHOLD = 60`. -/
def DEFAULT_AUTO_PUMP_THRESHOLD : Int := 60

/-- `DEFAULT_AUTO_WATER_LOAD = 2000`. -/
def DEFAULT_AUTO_WATER_LOAD : Int := 2000

/-- `AutoPump.MODE_AUTO_STANDBY = 0`. -/
def MODE_AUTO_STANDBY : Int := 0

/-- `AutoPump.MODE_AUTO_PUMPING = 1`. -/
def MODE_AUTO_PUMPING : Int := 1

/-- `AutoPump.MODE_TIMER_STANDBY = 2`. -/
def MODE_TIMER_STANDBY : Int := 2

/-- `AutoPump.MODE_TIMER_PUMPING = 3`. -/
def MODE_TIMER_PUMPING : Int := 3

/-- `AutoPump.AUTO_MODE_MENU = 0`. -/
def AUTO_MODE_MENU : Int := 0

/-- `AutoPump.AUTO_MENU_RUN = 0`. -/
def AUTO_MENU_RUN : Int := 0

/-- `AutoPump.AUTO_CALIB_THRESHOLD = 1`. -/
def AUTO_CALIB_THRESHOLD : Int := 1

/-- `AutoPump.AUTO_CALIB_WATER = 2`. -/
def AUTO_CALIB_WATER : Int := 2

/-- Python `int(a/b)`: true division followed by `int()` truncation toward
zero; on the integer inputs of `_run` this is exactly `Int.tdiv`. -/
def pyIntDiv (a b : Int) : Int := Int.tdiv a b

/-- What the TM1637 display currently shows. `show` renders a 4-char label,
`number` an integer, `write` raw segments (animation frame index together
with the truncated elapsed-minutes figure of the auto-pumping screen). -/
inductive DisplayContent where
  | text (label : String)
  | number (n : Int)
  | segments (animIdx : Nat) (minutes : Int)
deriving DecidableEq, Repr

/-- The persisted calibration map (`config.config` in flash, keys
`auto_threshold` and `auto_water_load`); `none` models an absent key. -/
structure PumpConfig where
  auto_threshold : Option Int
  auto_water_load : Option Int
deriving DecidableEq, Repr

/-- `self.Config.get("auto_threshold", DEFAULT_AUTO_PUMP_THRESHOLD)`. -/
def PumpConfig.thresholdD (c : PumpConfig) : Int :=
  c.auto_threshold.getD DEFAULT_AUTO_PUMP_THRESHOLD

/-- `self.Config.get("auto_water_load", DEFAULT_AUTO_WATER_LOAD)`. -/
def PumpConfig.waterLoadD (c : PumpConfig) : Int :=
  c.auto_water_load.getD DEFAULT_AUTO_WATER_LOAD

/-- The mutable state of `AutoPump` together with the `Pump` actuator pin,
the encoder counter, the display, and the config stores.  `Knob` is the
encoder's signed counter (`EncoderKnob.value()` reads it,
`EncoderKnob.value(x)` forcibly resets it to `x` and returns `x`).
`PumpPower` is the relay pin driven by `Pump.on`/`Pump.off`. -/
structure AutoPumpState where
  Mode : Int
  LastDataUpdate : Int
  PumpStartTime : Int
  RemainingPumpMinutes : Int
  SecondsToPump : Int
  AutoThreshold : Int
  AutoWaterLoad : Int
  AutoMode : Int
  AutoMenuSelected : Int
  AutoAnimationIdx : Nat
  Knob : Int
  PumpPower : Bool
  Display : DisplayContent
  Config : PumpConfig
  SavedConfig : PumpConfig
deriving DecidableEq, Repr

/-- `self.AutoMenu = ["AUTO", "RATO", "CALR"]` indexed by a (clamped or
mod-3) integer. -/
def autoMenuGet (i : Int) : String :=
  (["AUTO", "RATO", "CALR"]).getD i.toNat ""

/-- `AutoPump.__init__` state before the forced `handleSwitch(None)` call:
pump off (from `Pump.__init__`), auto standby, menu submode, calibration
values from the config (with defaults), display left at "DONE". -/
def initState (cfg : PumpConfig) : AutoPumpState :=
  { Mode := MODE_AUTO_STANDBY
    LastDataUpdate := 0
    PumpStartTime := 0
    RemainingPumpMinutes := 0
    SecondsToPump := 0
    AutoThreshold := cfg.thresholdD
    AutoWaterLoad := cfg.waterLoadD
    AutoMode := AUTO_MODE_MENU
    AutoMenuSelected := 0
    AutoAnimationIdx := 0
    Knob := 0
    PumpPower := false
    Display := .text "DONE"
    Config := cfg
    SavedConfig := cfg }

/-- `AutoPump.handleSwitch`: always `Pump.off()` first; then if the switch
reads other than `SWITCH_AUTO`, reset the knob to 0, seed the remaining
minutes from it and enter `MODE_TIMER_STANDBY`; otherwise show "AUTO" and
enter `MODE_AUTO_STANDBY` (the auto submode is left untouched). `pos` is
the `self.Switch.value()` reading. -/
def handleSwitch (s : AutoPumpState) (pos : Int) : AutoPumpState :=
  let s := { s with PumpPower := false }
  if pos ≠ SWITCH_AUTO then
    { s with Knob := 0, RemainingPumpMinutes := 0, Display := .number 0,
             Mode := MODE_TIMER_STANDBY }
  else
    { s with Display := .text "AUTO", Mode := MODE_AUTO_STANDBY }

/-- `AutoPump.handleKnob`: the encoder has already applied `change` to its
counter when the callback fires. In `TIMER_STANDBY` the (re-clamped ≥ 0)
counter becomes the remaining minutes; in `AUTO_STANDBY`/menu it selects
the menu entry mod 3; in `AUTO_STANDBY`/threshold-calibration it becomes
the threshold clamped into [0,100] with the counter re-seeded at the clamp
bound; everywhere else the knob is ignored. -/
def handleKnob (s : AutoPumpState) (change : Int) : AutoPumpState :=
  let s := { s with Knob := s.Knob + change }
  if s.Mode = MODE_TIMER_STANDBY then
    let value := s.Knob
    if value < 0 then
      { s with Knob := 0, RemainingPumpMinutes := 0, Display := .number 0 }
    else
      { s with RemainingPumpMinutes := value, Display := .number value }
  else if s.Mode = MODE_AUTO_STANDBY then
    if s.AutoMode = AUTO_MODE_MENU then
      let sel := s.Knob % 3
      { s with AutoMenuSelected := sel, Display := .text (autoMenuGet sel) }
    else if s.AutoMode = AUTO_CALIB_THRESHOLD then
      let value := s.Knob
      if value < 0 then
        { s with Knob := 0, AutoThreshold := 0, Display := .number 0 }
      else if value > 100 then
        { s with Knob := 100, AutoThreshold := 100, Display := .number 100 }
      else
        { s with AutoThreshold := value, Display := .number value }
    else
      s
  else
    s

/-- `AutoPump.handleButton` at wall-clock time `now`.  Note the
`MODE_AUTO_PUMPING` branch of the source stops the pump and shows the menu
label but never reassigns `self.Mode`. -/
def handleButton (s : AutoPumpState) (now : Int) : AutoPumpState :=
  if s.Mode = MODE_TIMER_STANDBY then
    if s.RemainingPumpMinutes > 0 then
      { s with Mode := MODE_TIMER_PUMPING,
               SecondsToPump := s.RemainingPumpMinutes * 60,
               PumpPower := true,
               PumpStartTime := now }
    else
      s
  else if s.Mode = MODE_TIMER_PUMPING then
    { s with Mode := MODE_TIMER_STANDBY, PumpPower := false,
             Knob := 0, RemainingPumpMinutes := 0, Display := .number 0 }
  else if s.Mode = MODE_AUTO_STANDBY then
    if s.AutoMode = AUTO_MODE_MENU then
      if s.AutoMenuSelected = AUTO_MENU_RUN then
        { s with Mode := MODE_AUTO_PUMPING, PumpPower := true,
                 PumpStartTime := now, Display := .text " ON " }
      else if s.AutoMenuSelected = AUTO_CALIB_THRESHOLD then
        { s with Knob := s.AutoThreshold, Display := .number s.AutoThreshold,
                 AutoMode := AUTO_CALIB_THRESHOLD }
      else if s.AutoMenuSelected = AUTO_CALIB_WATER then
        { s with AutoMode := AUTO_CALIB_WATER }
      else
        s
    else if s.AutoMode = AUTO_CALIB_THRESHOLD then
      let cfg := { s.Config with auto_threshold := some s.AutoThreshold }
      { s with Config := cfg, SavedConfig := cfg,
               AutoMode := AUTO_MODE_MENU,
               Knob := s.AutoMenuSelected,
               Display := .text (autoMenuGet s.AutoMenuSelected) }
    else if s.AutoMode = AUTO_CALIB_WATER then
      let cfg := { s.Config with auto_water_load := some s.AutoWaterLoad }
      { s with Config := cfg, SavedConfig := cfg,
               AutoMode := AUTO_MODE_MENU,
               Display := .text (autoMenuGet s.AutoMenuSelected) }
    else
      s
  else if s.Mode = MODE_AUTO_PUMPING then
    { s with PumpPower := false, Display := .text (autoMenuGet 0) }
  else
    s

/-- `AutoPump.checkLoadToStop`: `percent = float(load)/self.AutoWaterLoad*100`,
return `True` iff `percent < self.AutoThreshold` (strict). -/
def checkLoadToStop (s : AutoPumpState) (load : Int) : Bool :=
  let percent : ℚ := (load : ℚ) / (s.AutoWaterLoad : ℚ) * 100
  if percent < (s.AutoThreshold : ℚ) then true else false

/-- The two nested guards of the auto-completion check in `AutoPump._run`
(lines 446-447): `now - self.PumpStartTime > AUTO_READ_DELAY` and the
Python-truthiness test `if now % 10:`, i.e. `now` is not an exact multiple
of 10. -/
def autoCheckGuard (now start : Int) : Bool :=
  decide (now - start > AUTO_READ_DELAY) && decide (¬ now % 10 = 0)

/-- The `MODE_TIMER_PUMPING` block of `AutoPump._run`: recompute the
ceiling-style countdown `int((SecondsToPump + 59 - elapsed)/60)`, push it
into the knob and the display, then if `elapsed >= SecondsToPump` stop the
pump, re-enter timer standby and zero the minutes via the knob. -/
def runTickTimerPumping (s : AutoPumpState) (now : Int) : AutoPumpState :=
  let elapsed := now - s.PumpStartTime
  let rem := pyIntDiv (s.SecondsToPump + 59 - elapsed) 60
  let s := { s with RemainingPumpMinutes := rem, Knob := rem,
                    Display := .number rem }
  if elapsed ≥ s.SecondsToPump then
    { s with PumpPower := false, Mode := MODE_TIMER_STANDBY,
             Knob := 0, RemainingPumpMinutes := 0, Display := .number 0 }
  else
    s

/-- The `MODE_AUTO_PUMPING` block of `AutoPump._run`: after the elapsed
guard and the `now % 10` throttle, a triggering load sample stops the pump
and re-enters auto standby; then on odd seconds the animation frame plus
the truncated elapsed minutes are written to the display. -/
def runTickAutoPumping (s : AutoPumpState) (now load : Int) : AutoPumpState :=
  let s :=
    if autoCheckGuard now s.PumpStartTime then
      if checkLoadToStop s load then
        { s with PumpPower := false, Mode := MODE_AUTO_STANDBY,
                 Display := .text (autoMenuGet 0) }
      else
        s
    else
      s
  if ¬ now % 2 = 0 then
    let idx := s.AutoAnimationIdx + 1
    let idx := if idx ≥ 8 then idx - 8 else idx
    { s with Display := .segments s.AutoAnimationIdx
                          (pyIntDiv (now - s.PumpStartTime) 60),
             AutoAnimationIdx := idx }
  else
    s

/-- One iteration of `AutoPump._run` at wall-clock time `now`; `load` is
the `Pump.getLoad()` reading for the branches that sample the sensor. -/
def runTick (s : AutoPumpState) (now load : Int) : AutoPumpState :=
  if s.Mode = MODE_TIMER_PUMPING then
    runTickTimerPumping s now
  else if s.Mode = MODE_TIMER_STANDBY then
    if ¬ now % 2 = 0 then { s with Display := .number s.RemainingPumpMinutes }
    else s
  else if s.Mode = MODE_AUTO_STANDBY then
    if s.AutoMode = AUTO_MODE_MENU then
      { s with Display := .text (autoMenuGet s.AutoMenuSelected) }
    else if s.AutoMode = AUTO_CALIB_THRESHOLD then
      { s with Display := .number s.AutoThreshold }
    else if s.AutoMode = AUTO_CALIB_WATER then
      let s := if ¬ now % 5 = 0 then { s with AutoWaterLoad := load } else s
      { s with Display := .number s.AutoWaterLoad }
    else
      s
  else if s.Mode = MODE_AUTO_PUMPING then
    runTickAutoPumping s now load
  else
    s

/-- Outcome of one `urequests.post` inside `sendDatapoint`: either the
transport raised (`err`, caught by the bare `except`) or it completed with
a response body of the given length. -/
inductive PostResult where
  | err
  | ok (textLen : Nat)
deriving DecidableEq, Repr

/-- The `for x in range(DATA_RETRY_COUNT)` loop of `sendDatapoint`;
`o k` is the outcome of attempt number `k`, `made` counts posts performed.
A transport error breaks out (the trailing `return False`); an empty body
is `return True`; a non-empty body is `return False`.  Returns the result
together with the number of attempts performed. -/
def sendAttempts (o : Nat → PostResult) : Nat → Nat → Bool × Nat
  | 0, made => (false, made)
  | Nat.succ _, made =>
    match o made with
    | .err => (false, made + 1)
    | .ok textLen =>
      if textLen < 1 then (true, made + 1) else (false, made + 1)

/-- `sendDatapoint` for one telemetry point, abstracted over the transport
outcomes `o`. -/
def sendDatapoint (o : Nat → PostResult) : Bool × Nat :=
  sendAttempts o DATA_RETRY_COUNT 0

/-- One pass of the inner loop of `AutoPump._networkThread` at time `now`:
if `now - self.LastDataUpdate > DATA_DELAY_SEC`, read the load, publish
the load and mode points (no effect on the controller state), and stamp
`LastDataUpdate := now`; otherwise sleep. -/
def networkThreadStep (s : AutoPumpState) (now : Int) : AutoPumpState :=
  if now - s.LastDataUpdate > DATA_DELAY_SEC then
    { s with LastDataUpdate := now }
  else
    s

/-- `main()` boot: construct the state and run the forced
`handleSwitch(None)` with the initial switch reading `pos`. -/
def bootState (cfg : PumpConfig) (pos : Int) : AutoPumpState :=
  handleSwitch (initState cfg) pos

/-- States reachable from boot (config `cfg`, any initial switch reading)
through any interleaving of switch, knob and button handler invocations,
periodic `_run` ticks and telemetry-thread passes, where every load sample
consumed by a tick satisfies `loadOK`. -/
inductive ReachableFrom (loadOK : Int → Prop) (cfg : PumpConfig) :
    AutoPumpState → Prop where
  | boot (pos : Int) : ReachableFrom loadOK cfg (bootState cfg pos)
  | switch {s} (pos : Int) : ReachableFrom loadOK cfg s →
      ReachableFrom loadOK cfg (handleSwitch s pos)
  | knob {s} (change : Int) : ReachableFrom loadOK cfg s →
      ReachableFrom loadOK cfg (handleKnob s change)
  | button {s} (now : Int) : ReachableFrom loadOK cfg s →
      ReachableFrom loadOK cfg (handleButton s now)
  | tick {s} (now load : Int) : loadOK load → ReachableFrom loadOK cfg s →
      ReachableFrom loadOK cfg (runTick s now load)
  | net {s} (now : Int) : ReachableFrom loadOK cfg s →
      ReachableFrom loadOK cfg (networkThreadStep s now)

/-- Reachability with unconstrained load samples. -/
def Reachable (cfg : PumpConfig) (s : AutoPumpState) : Prop :=
  ReachableFrom (fun _ => True) cfg s

/-! ## Helper lemmas -/

/-- Python truncating division agrees with floor division on non-negative
operands. -/
theorem pyIntDiv_eq_fdiv {a b : Int} (ha : 0 ≤ a) (hb : 0 ≤ b) :
    pyIntDiv a b = Int.fdiv a b := by
  unfold pyIntDiv
  rw [Int.tdiv_eq_ediv ha hb, Int.fdiv_eq_ediv _ hb]

theorem fdiv_nonneg_of_nonneg {a b : Int} (ha : 0 ≤ a) (hb : 0 ≤ b) :
    0 ≤ Int.fdiv a b :=
  Int.fdiv_nonneg ha hb

theorem fdiv_eq_zero_of_lt {a b : Int} (ha : 0 ≤ a) (hab : a < b) :
    Int.fdiv a b = 0 := by
  rw [Int.fdiv_eq_ediv _ (le_of_lt (lt_of_le_of_lt ha hab))]
  exact Int.ediv_eq_zero_of_lt ha hab

/-- Unfold the boolean result of `checkLoadToStop` into the rational
comparison it performs. -/
theorem checkLoadToStop_eq_true_iff (s : AutoPumpState) (load : Int) :
    checkLoadToStop s load = true ↔
      (load : ℚ) / (s.AutoWaterLoad : ℚ) * 100 < (s.AutoThreshold : ℚ) := by
  simp only [checkLoadToStop]
  split_ifs with h <;> simp [h]

/-- With a positive baseline, the float comparison of `checkLoadToStop`
is the integer comparison `100·load < threshold·baseline`. -/
theorem checkLoadToStop_iff (s : AutoPumpState) (load : Int)
    (hb : 0 < s.AutoWaterLoad) :
    checkLoadToStop s load = true ↔
      100 * load < s.AutoThreshold * s.AutoWaterLoad := by
  have hb' : (0 : ℚ) < (s.AutoWaterLoad : ℚ) := by exact_mod_cast hb
  rw [checkLoadToStop_eq_true_iff, div_mul_eq_mul_div, div_lt_iff₀ hb']
  constructor
  · intro h
    have h2 : ((100 * load : Int) : ℚ) <
        ((s.AutoThreshold * s.AutoWaterLoad : Int) : ℚ) := by
      push_cast
      linarith
    exact_mod_cast h2
  · intro h
    have h2 : ((100 * load : Int) : ℚ) <
        ((s.AutoThreshold * s.AutoWaterLoad : Int) : ℚ) := by exact_mod_cast h
    push_cast at h2
    linarith

/-! ## Concrete fixtures -/

/-- The calibration config `{auto_threshold: 60, auto_water_load: 2000}`
(the defaults), used by the concrete traces below. -/
def cfg0 : PumpConfig := ⟨some 60, some 2000⟩

/-! ## Claims -/

/-- Claim C1 (code bug): the claimed invariant "Actuator is ON iff Mode is
AutoPumping or TimerPumping" fails on a reachable state: boot with the
switch in the auto position, press the button (menu entry Run, pump turns
ON, Mode = AutoPumping), press the button again — the handler stops the
pump and shows the standby menu label, but `self.Mode` is never
reassigned, so the pump is OFF while Mode is still `MODE_AUTO_PUMPING`. -/
theorem c1_invariant_violated :
    Reachable cfg0 (handleButton (handleButton (bootState cfg0 1) 5) 7)
    ∧ (handleButton (handleButton (bootState cfg0 1) 5) 7).PumpPower = false
    ∧ (handleButton (handleButton (bootState cfg0 1) 5) 7).Mode =
        MODE_AUTO_PUMPING :=
  ⟨ReachableFrom.button 7 (ReachableFrom.button 5 (ReachableFrom.boot 1)),
   by decide, by decide⟩

/-- Claim C2 (code bug): in AutoPumping a button press turns the pump OFF
(as claimed) but does NOT transition Mode to AutoStandby: the
`MODE_AUTO_PUMPING` branch of `handleButton` (src/main.py lines 365-368)
calls `Pump.off()` and displays the menu label yet omits the Mode
reassignment, so the state stays in `MODE_AUTO_PUMPING`. -/
theorem c2_button_no_transition :
    (handleButton (bootState cfg0 1) 5).Mode = MODE_AUTO_PUMPING
    ∧ (handleButton (bootState cfg0 1) 5).PumpPower = true
    ∧ (handleButton (handleButton (bootState cfg0 1) 5) 9).PumpPower = false
    ∧ (handleButton (handleButton (bootState cfg0 1) 5) 9).Mode ≠
        MODE_AUTO_STANDBY := by
  refine ⟨by decide, by decide, by decide, by decide⟩

/-- Claim C4 (confirmed): with baseline `B = AutoWaterLoad > 0` and
threshold `T = AutoThreshold`, a load sample `L` triggers auto-completion
(`checkLoadToStop` returns `True`) iff `100·L/B < T` strictly, and a
sample with `100·L/B = T` does not trigger. -/
theorem c4_strict_threshold (s : AutoPumpState) (load : Int)
    (hb : 0 < s.AutoWaterLoad) :
    (checkLoadToStop s load = true ↔
      100 * (load : ℚ) / (s.AutoWaterLoad : ℚ) < (s.AutoThreshold : ℚ))
    ∧ (100 * (load : ℚ) / (s.AutoWaterLoad : ℚ) = (s.AutoThreshold : ℚ) →
        checkLoadToStop s load = false) := by
  have key : 100 * (load : ℚ) / (s.AutoWaterLoad : ℚ) =
      (load : ℚ) / (s.AutoWaterLoad : ℚ) * 100 := by ring
  constructor
  · rw [key]
    exact checkLoadToStop_eq_true_iff s load
  · intro h
    have hne : ¬ (checkLoadToStop s load = true) := by
      rw [checkLoadToStop_eq_true_iff, ← key, h]
      exact lt_irrefl _
    simpa using hne
  
/-- Witness for C4 at the spec scenario: threshold 60, baseline 2000,
sample 1199 (59.95 %) triggers the stop. -/
theorem c4_strict_threshold_witness :
    0 < (initState cfg0).AutoWaterLoad
    ∧ checkLoadToStop (initState cfg0) 1199 = true :=
  ⟨by decide,
   (c4_strict_threshold (initState cfg0) 1199 (by decide)).1.mpr
     (by norm_num [initState, cfg0, PumpConfig.waterLoadD,
                   PumpConfig.thresholdD])⟩

/-- Claim C7 (confirmed): `sendDatapoint` performs at most
`DATA_RETRY_COUNT = 3` posts (in fact every path completes after the
first): a transport-level error (the bare `except` around
`urequests.post`) ends the point with failure and no further attempt; a
completed post with a non-empty body is terminal failure even though
attempts remain; a completed post with an empty body is success.  The
result is a value, never a propagated exception, so the telemetry loop in
`_networkThread` continues past a dropped point. -/
theorem c7_send_datapoint (o : Nat → PostResult) :
    (sendDatapoint o).2 = 1
    ∧ (sendDatapoint o).2 ≤ DATA_RETRY_COUNT
    ∧ (o 0 = PostResult.err → sendDatapoint o = (false, 1))
    ∧ (∀ n, o 0 = PostResult.ok n → 1 ≤ n → sendDatapoint o = (false, 1))
    ∧ (∀ n, o 0 = PostResult.ok n → n = 0 → sendDatapoint o = (true, 1)) := by
  rcases h0 : o 0 with _ | n
  · simp [sendDatapoint, sendAttempts, DATA_RETRY_COUNT, h0]
  · rcases n with _ | m
    · simp [sendDatapoint, sendAttempts, DATA_RETRY_COUNT, h0]
    · simp [sendDatapoint, sendAttempts, DATA_RETRY_COUNT, h0]

/-- Witness for C7: a transport error on the first attempt yields failure
after exactly one attempt. -/
theorem c7_send_datapoint_witness :
    sendDatapoint (fun _ => PostResult.err) = (false, 1) :=
  (c7_send_datapoint (fun _ => PostResult.err)).2.2.1 rfl

/-- Claim C8 counterexample: one pass of the telemetry thread does mutate
a ControllerState field: from the boot state (LastDataUpdate = 0) a pass
at `now = 16` sets `LastDataUpdate := 16` (src/main.py line 395), so the
task's interaction with controller state is not limited to reading Mode. -/
theorem c8_counterexample :
    (networkThreadStep (bootState cfg0 1) 16).LastDataUpdate = 16
    ∧ (bootState cfg0 1).LastDataUpdate = 0 := by
  refine ⟨by decide, by decide⟩

/-- Claim C8 (amended): the telemetry thread pass mutates ONLY the
`LastDataUpdate` cadence stamp; every other field of the controller state
(Mode, submode, menu index, minutes, seconds, start time, threshold,
baseline, animation index, knob, pump pin, display, both config maps) is
untouched. -/
theorem c8_network_frame (s : AutoPumpState) (now : Int) :
    (networkThreadStep s now).Mode = s.Mode
    ∧ (networkThreadStep s now).AutoMode = s.AutoMode
    ∧ (networkThreadStep s now).AutoMenuSelected = s.AutoMenuSelected
    ∧ (networkThreadStep s now).RemainingPumpMinutes = s.RemainingPumpMinutes
    ∧ (networkThreadStep s now).SecondsToPump = s.SecondsToPump
    ∧ (networkThreadStep s now).PumpStartTime = s.PumpStartTime
    ∧ (networkThreadStep s now).AutoThreshold = s.AutoThreshold
    ∧ (networkThreadStep s now).AutoWaterLoad = s.AutoWaterLoad
    ∧ (networkThreadStep s now).AutoAnimationIdx = s.AutoAnimationIdx
    ∧ (networkThreadStep s now).Knob = s.Knob
    ∧ (networkThreadStep s now).PumpPower = s.PumpPower
    ∧ (networkThreadStep s now).Display = s.Display
    ∧ (networkThreadStep s now).Config = s.Config
    ∧ (networkThreadStep s now).SavedConfig = s.SavedConfig := by
  unfold networkThreadStep
  split_ifs <;> simp

/-- Claim C10 counterexample: a mode-switch event from a reachable
AutoStandby/CalibThreshold state (boot auto, knob to entry 1, button)
with the switch in the auto position leaves the pump OFF and Mode =
AutoStandby, but the submenu is still CalibThreshold, not Menu:
`handleSwitch` never resets `self.AutoMode`. -/
theorem c10_counterexample :
    Reachable cfg0 (handleSwitch (handleButton (handleKnob
      (bootState cfg0 1) 1) 0) 1)
    ∧ (handleSwitch (handleButton (handleKnob (bootState cfg0 1) 1) 0)
        1).Mode = MODE_AUTO_STANDBY
    ∧ (handleSwitch (handleButton (handleKnob (bootState cfg0 1) 1) 0)
        1).AutoMode ≠ AUTO_MODE_MENU
    ∧ (handleSwitch (handleButton (handleKnob (bootState cfg0 1) 1) 0)
        1).PumpPower = false :=
  ⟨ReachableFrom.switch 1 (ReachableFrom.button 0 (ReachableFrom.knob 1
     (ReachableFrom.boot 1))),
   by decide, by decide, by decide⟩

/-- Claim C10 (amended): a mode-switch event from any prior state forces
the Actuator OFF (postcondition of every switch event), and sets Mode to
TimerStandby — with the knob counter reset to 0 and the remaining minutes
seeded from it — if the switch reads the manual position, else to
AutoStandby with the auto submenu left unchanged (Menu only if it already
was Menu). -/
theorem c10_switch_postcondition (s : AutoPumpState) (pos : Int) :
    (handleSwitch s pos).PumpPower = false
    ∧ (pos ≠ SWITCH_AUTO →
        (handleSwitch s pos).Mode = MODE_TIMER_STANDBY
        ∧ (handleSwitch s pos).RemainingPumpMinutes = 0
        ∧ (handleSwitch s pos).Knob = 0)
    ∧ (pos = SWITCH_AUTO →
        (handleSwitch s pos).Mode = MODE_AUTO_STANDBY
        ∧ (handleSwitch s pos).AutoMode = s.AutoMode) := by
  unfold handleSwitch
  split_ifs with h <;> simp [h]

/-- Witness for C10 (amended) at a concrete state and both switch
positions. -/
theorem c10_switch_postcondition_witness :
    (handleSwitch (bootState cfg0 0) 1).PumpPower = false
    ∧ (handleSwitch (bootState cfg0 0) 1).Mode = MODE_AUTO_STANDBY
    ∧ (handleSwitch (bootState cfg0 0) 0).Mode = MODE_TIMER_STANDBY :=
  ⟨(c10_switch_postcondition (bootState cfg0 0) 1).1,
   ((c10_switch_postcondition (bootState cfg0 0) 1).2.2 rfl).1,
   ((c10_switch_postcondition (bootState cfg0 0) 0).2.1 (by decide)).1⟩

/-! ## Tick characterization lemmas -/

theorem runTick_timerPumping_eq (s : AutoPumpState) (now load : Int)
    (hm : s.Mode = MODE_TIMER_PUMPING) :
    runTick s now load = runTickTimerPumping s now := by
  unfold runTick
  rw [if_pos hm]

theorem runTick_autoPumping_eq (s : AutoPumpState) (now load : Int)
    (hm : s.Mode = MODE_AUTO_PUMPING) :
    runTick s now load = runTickAutoPumping s now load := by
  unfold runTick
  rw [if_neg (by rw [hm]; decide), if_neg (by rw [hm]; decide),
      if_neg (by rw [hm]; decide), if_pos hm]

theorem runTickTimerPumping_done (s : AutoPumpState) (now : Int)
    (hc : s.SecondsToPump ≤ now - s.PumpStartTime) :
    runTickTimerPumping s now =
      { s with RemainingPumpMinutes := 0, Knob := 0,
               Display := DisplayContent.number 0,
               PumpPower := false, Mode := MODE_TIMER_STANDBY } := by
  simp only [runTickTimerPumping]
  rw [if_pos hc]

theorem runTickTimerPumping_running (s : AutoPumpState) (now : Int)
    (hc : ¬ s.SecondsToPump ≤ now - s.PumpStartTime) :
    runTickTimerPumping s now =
      { s with
        RemainingPumpMinutes :=
          pyIntDiv (s.SecondsToPump + 59 - (now - s.PumpStartTime)) 60,
        Knob := pyIntDiv (s.SecondsToPump + 59 - (now - s.PumpStartTime)) 60,
        Display := DisplayContent.number
          (pyIntDiv (s.SecondsToPump + 59 - (now - s.PumpStartTime)) 60) } := by
  simp only [runTickTimerPumping]
  rw [if_neg hc]

theorem runTickAutoPumping_Mode (s : AutoPumpState) (now load : Int) :
    (runTickAutoPumping s now load).Mode =
      if autoCheckGuard now s.PumpStartTime ∧ checkLoadToStop s load = true
      then MODE_AUTO_STANDBY else s.Mode := by
  simp only [runTickAutoPumping]
  split_ifs <;> simp_all

/-- In the no-stop case the auto-pumping tick only advances the display
animation (on seconds where `now % 2` is truthy). -/
theorem runTickAutoPumping_no_stop (s : AutoPumpState) (now load : Int)
    (h : ¬ (autoCheckGuard now s.PumpStartTime = true
            ∧ checkLoadToStop s load = true)) :
    runTickAutoPumping s now load =
      if ¬ now % 2 = 0 then
        { s with
          Display := DisplayContent.segments s.AutoAnimationIdx
            (pyIntDiv (now - s.PumpStartTime) 60),
          AutoAnimationIdx :=
            if s.AutoAnimationIdx + 1 ≥ 8 then s.AutoAnimationIdx + 1 - 8
            else s.AutoAnimationIdx + 1 }
      else s := by
  simp only [runTickAutoPumping]
  by_cases hg : autoCheckGuard now s.PumpStartTime
  · have hck : ¬ (checkLoadToStop s load = true) := fun hc => h ⟨hg, hc⟩
    rw [if_pos hg, if_neg hck]
  · rw [if_neg hg]

/-- Claim C3 counterexample: in TimerPumping with SecondsToPump = 300
(reached by boot in manual position, knob +5, button at time 100), a tick
at time 520 (elapsed e = 420 > S + 59) ends with RemainingMinutes = 0,
whereas the claimed formula floor((S+59−e)/60) gives −2 (and the code's
intermediate `int()` truncation gives −1, which is negative): the claimed
formula/non-negativity only hold for e ≤ S + 59. -/
theorem c3_counterexample :
    Reachable cfg0 (handleButton (handleKnob (bootState cfg0 0) 5) 100)
    ∧ (handleButton (handleKnob (bootState cfg0 0) 5) 100).Mode =
        MODE_TIMER_PUMPING
    ∧ (handleButton (handleKnob (bootState cfg0 0) 5) 100).SecondsToPump = 300
    ∧ (runTick (handleButton (handleKnob (bootState cfg0 0) 5) 100) 520
        0).RemainingPumpMinutes = 0
    ∧ Int.fdiv (300 + 59 - 420) 60 = -2
    ∧ pyIntDiv (300 + 59 - 420) 60 = -1 :=
  ⟨ReachableFrom.button 100 (ReachableFrom.knob 5 (ReachableFrom.boot 0)),
   by decide, by decide, by decide, by decide, by decide⟩

/-- Claim C3 (amended): in TimerPumping with SecondsToPump = S, pump ON,
and elapsed e = now − PumpStartTime with 0 ≤ e ≤ S + 59, a tick sets and
displays RemainingMinutes = floor((S+59−e)/60), which is non-negative, and
it turns the pump OFF with transition to TimerStandby and
RemainingMinutes = 0 exactly when e ≥ S.  (Beyond e = S + 59 — a tick gap
of more than 59 s past expiry — the truncating countdown expression goes
negative and differs from the floor before being overwritten by 0.) -/
theorem c3_timer_countdown (s : AutoPumpState) (now load : Int)
    (hm : s.Mode = MODE_TIMER_PUMPING) (hp : s.PumpPower = true)
    (he0 : 0 ≤ now - s.PumpStartTime)
    (he1 : now - s.PumpStartTime ≤ s.SecondsToPump + 59) :
    (runTick s now load).RemainingPumpMinutes =
      Int.fdiv (s.SecondsToPump + 59 - (now - s.PumpStartTime)) 60
    ∧ 0 ≤ (runTick s now load).RemainingPumpMinutes
    ∧ (runTick s now load).Display =
        DisplayContent.number ((runTick s now load).RemainingPumpMinutes)
    ∧ (s.SecondsToPump ≤ now - s.PumpStartTime ↔
        ((runTick s now load).PumpPower = false
         ∧ (runTick s now load).Mode = MODE_TIMER_STANDBY
         ∧ (runTick s now load).RemainingPumpMinutes = 0)) := by
  rw [runTick_timerPumping_eq s now load hm]
  by_cases hc : s.SecondsToPump ≤ now - s.PumpStartTime
  · rw [runTickTimerPumping_done s now hc]
    have hz : Int.fdiv (s.SecondsToPump + 59 - (now - s.PumpStartTime)) 60
        = 0 :=
      fdiv_eq_zero_of_lt (by omega) (by omega)
    refine ⟨by simp [hz], by simp, by simp, ?_⟩
    constructor
    · intro _
      exact ⟨rfl, rfl, rfl⟩
    · intro _
      exact hc
  · rw [runTickTimerPumping_running s now hc]
    have hnn : 0 ≤ s.SecondsToPump + 59 - (now - s.PumpStartTime) := by omega
    have heq : pyIntDiv (s.SecondsToPump + 59 - (now - s.PumpStartTime)) 60
        = Int.fdiv (s.SecondsToPump + 59 - (now - s.PumpStartTime)) 60 :=
      pyIntDiv_eq_fdiv hnn (by omega)
    refine ⟨by simp [heq], ?_, by simp, ?_⟩
    · simp only [heq]
      exact fdiv_nonneg_of_nonneg hnn (by omega)
    · simp only [iff_false_intro hc, false_iff]
      intro hcontr
      have hpp : ({ s with
          RemainingPumpMinutes :=
            pyIntDiv (s.SecondsToPump + 59 - (now - s.PumpStartTime)) 60,
          Knob := pyIntDiv (s.SecondsToPump + 59 - (now - s.PumpStartTime)) 60,
          Display := DisplayContent.number
            (pyIntDiv (s.SecondsToPump + 59 - (now - s.PumpStartTime)) 60)
          : AutoPumpState }).PumpPower = true := hp
      rw [hcontr.1] at hpp
      exact Bool.false_ne_true hpp

/-- Witness for C3 (amended) at the spec scenario: S = 300, start = 100;
at elapsed 241 s the display shows floor(118/60) = 1; at elapsed 300 s the
pump is OFF, Mode is TimerStandby and RemainingMinutes = 0. -/
theorem c3_timer_countdown_witness :
    (runTick (handleButton (handleKnob (bootState cfg0 0) 5) 100) 341
      0).RemainingPumpMinutes = Int.fdiv (300 + 59 - 241) 60
    ∧ ((runTick (handleButton (handleKnob (bootState cfg0 0) 5) 100) 400
        0).PumpPower = false
       ∧ (runTick (handleButton (handleKnob (bootState cfg0 0) 5) 100) 400
          0).Mode = MODE_TIMER_STANDBY
       ∧ (runTick (handleButton (handleKnob (bootState cfg0 0) 5) 100) 400
          0).RemainingPumpMinutes = 0) :=
  ⟨(c3_timer_countdown (handleButton (handleKnob (bootState cfg0 0) 5) 100)
      341 0 (by decide) (by decide) (by decide) (by decide)).1,
   (c3_timer_countdown (handleButton (handleKnob (bootState cfg0 0) 5) 100)
      400 0 (by decide) (by decide) (by decide) (by decide)).2.2.2.mp
     (by decide)⟩

/-- Claim C5 (amended): in AutoPumping the auto-completion load check is
performed exactly when `now − PumpStartTime > AUTO_READ_DELAY = 30`
(strict) AND `now` is not an exact multiple of 10 (Python truthiness of
`now % 10`).  The first half of the claim (the ~30 s elapsed guard) holds;
but the `now % 10` test is not a once-per-10-seconds throttle: it runs the
check on every tick of roughly nine seconds out of ten and skips only the
exact multiples of 10. -/
theorem c5_check_guard (s : AutoPumpState) (now load : Int)
    (hm : s.Mode = MODE_AUTO_PUMPING) :
    (autoCheckGuard now s.PumpStartTime = true →
      now - s.PumpStartTime > AUTO_READ_DELAY)
    ∧ ((runTick s now load).Mode = MODE_AUTO_STANDBY ↔
        autoCheckGuard now s.PumpStartTime = true
        ∧ checkLoadToStop s load = true) := by
  constructor
  · intro h
    unfold autoCheckGuard at h
    simp only [Bool.and_eq_true, decide_eq_true_eq] at h
    exact h.1
  · rw [runTick_autoPumping_eq s now load hm, runTickAutoPumping_Mode]
    split_ifs with h
    · simp [h]
    · rw [hm]
      exact iff_of_false (by decide) h

/-- Witness for C5 (amended): from the auto-pumping state started at time
0, a tick at `now = 41` with load sample 0 (0 % of the 2000 baseline,
under the 60 threshold) transitions to AutoStandby. -/
theorem c5_check_guard_witness :
    (runTick (handleButton (bootState cfg0 1) 0) 41 0).Mode =
      MODE_AUTO_STANDBY :=
  (c5_check_guard (handleButton (bootState cfg0 1) 0) 41 0 (by decide)).2.mpr
    ⟨by decide,
     (checkLoadToStop_iff (handleButton (bootState cfg0 1) 0) 0
       (by decide)).mpr (by decide)⟩

/-- Claim C5 counterexample: the check cadence is not "roughly one check
every 10 seconds".  From the auto-pumping state started at time 0 (boot
auto, button at 0): a tick at 41 s with a triggering sample stops the pump
— and so does a tick at 42 s reached after a non-triggering check at 41 s:
two effective load checks on consecutive seconds.  Meanwhile a tick at
40 s (elapsed 40 > 30 but an exact multiple of 10) never samples. -/
theorem c5_counterexample :
    Reachable cfg0 (handleButton (bootState cfg0 1) 0)
    ∧ (runTick (handleButton (bootState cfg0 1) 0) 41 0).Mode =
        MODE_AUTO_STANDBY
    ∧ (runTick (handleButton (bootState cfg0 1) 0) 41 3000).Mode =
        MODE_AUTO_PUMPING
    ∧ (runTick (runTick (handleButton (bootState cfg0 1) 0) 41 3000) 42
        0).Mode = MODE_AUTO_STANDBY
    ∧ (runTick (handleButton (bootState cfg0 1) 0) 40 0).Mode =
        MODE_AUTO_PUMPING := by
  have hm : (handleButton (bootState cfg0 1) 0).Mode = MODE_AUTO_PUMPING :=
    by decide
  have hwater : 0 < (handleButton (bootState cfg0 1) 0).AutoWaterLoad :=
    by decide
  have h0 : checkLoadToStop (handleButton (bootState cfg0 1) 0) 0 = true :=
    (checkLoadToStop_iff _ _ hwater).mpr (by decide)
  have h3000 : ¬ (checkLoadToStop (handleButton (bootState cfg0 1) 0) 3000
      = true) := by
    rw [checkLoadToStop_iff _ _ hwater]
    decide
  have hs2 : runTick (handleButton (bootState cfg0 1) 0) 41 3000 =
      { handleButton (bootState cfg0 1) 0 with
        Display := DisplayContent.segments 0 0, AutoAnimationIdx := 1 } := by
    rw [runTick_autoPumping_eq _ 41 3000 hm,
        runTickAutoPumping_no_stop _ 41 3000 (fun hc => h3000 hc.2),
        if_pos (by decide)]
    decide
  refine ⟨ReachableFrom.button 0 (ReachableFrom.boot 1), ?_, ?_, ?_, ?_⟩
  · rw [runTick_autoPumping_eq _ 41 0 hm, runTickAutoPumping_Mode,
        if_pos ⟨by decide, h0⟩]
  · rw [runTick_autoPumping_eq _ 41 3000 hm, runTickAutoPumping_Mode,
        if_neg (fun hc => h3000 hc.2)]
    exact hm
  · rw [hs2]
    have hm2 : ({ handleButton (bootState cfg0 1) 0 with
        Display := DisplayContent.segments 0 0,
        AutoAnimationIdx := 1 } : AutoPumpState).Mode = MODE_AUTO_PUMPING :=
      by decide
    have h02 : checkLoadToStop ({ handleButton (bootState cfg0 1) 0 with
        Display := DisplayContent.segments 0 0,
        AutoAnimationIdx := 1 } : AutoPumpState) 0 = true :=
      (checkLoadToStop_iff _ _ (by decide)).mpr (by decide)
    rw [runTick_autoPumping_eq _ 42 0 hm2, runTickAutoPumping_Mode,
        if_pos ⟨by decide, h02⟩]
  · rw [runTick_autoPumping_eq _ 40 0 hm, runTickAutoPumping_Mode,
        if_neg (fun hc => by
          have := hc.1
          revert this
          decide)]
    exact hm

/-! ## Frame lemmas for the baseline and the knob handler -/

theorem handleSwitch_AutoWaterLoad (s : AutoPumpState) (pos : Int) :
    (handleSwitch s pos).AutoWaterLoad = s.AutoWaterLoad := by
  simp only [handleSwitch]
  split_ifs <;> rfl

theorem handleKnob_AutoWaterLoad (s : AutoPumpState) (change : Int) :
    (handleKnob s change).AutoWaterLoad = s.AutoWaterLoad := by
  simp only [handleKnob]
  split_ifs <;> rfl

theorem handleButton_AutoWaterLoad (s : AutoPumpState) (now : Int) :
    (handleButton s now).AutoWaterLoad = s.AutoWaterLoad := by
  simp only [handleButton]
  split_ifs <;> rfl

theorem networkThreadStep_AutoWaterLoad (s : AutoPumpState) (now : Int) :
    (networkThreadStep s now).AutoWaterLoad = s.AutoWaterLoad := by
  simp only [networkThreadStep]
  split_ifs <;> rfl

theorem runTick_AutoWaterLoad_pos (s : AutoPumpState) (now load : Int)
    (h : 0 < s.AutoWaterLoad) (hl : 0 < load) :
    0 < (runTick s now load).AutoWaterLoad := by
  simp only [runTick, runTickTimerPumping, runTickAutoPumping]
  split_ifs <;> simp_all

/-- Claim C6 counterexample: the baseline can reach 0.  Boot in auto mode,
knob +2 (menu entry CALR), button (enter CalibWater), then a tick at time
1 (1 % 5 is truthy) with a flat load sample of 0 stores
`AutoWaterLoad = 0`: `self.AutoWaterLoad = self.Pump.getLoad()` has no
positivity guard, and `checkLoadToStop` would then divide by zero. -/
theorem c6_counterexample :
    Reachable cfg0 (runTick (handleButton (handleKnob (bootState cfg0 1) 2)
      3) 1 0)
    ∧ (runTick (handleButton (handleKnob (bootState cfg0 1) 2) 3) 1
        0).AutoWaterLoad = 0 :=
  ⟨ReachableFrom.tick 1 0 trivial (ReachableFrom.button 3
     (ReachableFrom.knob 2 (ReachableFrom.boot 1))),
   by decide⟩

/-- Claim C6 (amended): the baseline `AutoWaterLoad` is strictly positive
in every reachable state PROVIDED the boot config baseline is positive and
every load sample consumed by a tick is positive; only a CalibWater
re-sample stores a sample into the baseline, so a zero sample (possible:
`getLoad` returns a peak-to-peak swing that may be 0) is the one way to
make the `checkLoadToStop` division ill-defined. -/
theorem c6_baseline_positive (cfg : PumpConfig) (s : AutoPumpState)
    (hcfg : 0 < cfg.waterLoadD)
    (hr : ReachableFrom (fun load => 0 < load) cfg s) :
    0 < s.AutoWaterLoad := by
  induction hr with
  | boot pos =>
      unfold bootState
      rw [handleSwitch_AutoWaterLoad]
      exact hcfg
  | switch pos hr ih =>
      rw [handleSwitch_AutoWaterLoad]
      exact ih
  | knob change hr ih =>
      rw [handleKnob_AutoWaterLoad]
      exact ih
  | button now hr ih =>
      rw [handleButton_AutoWaterLoad]
      exact ih
  | tick now load hl hr ih =>
      exact runTick_AutoWaterLoad_pos _ _ _ ih hl
  | net now hr ih =>
      rw [networkThreadStep_AutoWaterLoad]
      exact ih

/-- Witness for C6 (amended): with the default config and a positive
CalibWater sample (500) the baseline after re-sampling is positive. -/
theorem c6_baseline_positive_witness :
    0 < PumpConfig.waterLoadD cfg0
    ∧ 0 < (runTick (handleButton (handleKnob (bootState cfg0 1) 2) 3) 1
        500).AutoWaterLoad :=
  ⟨by decide,
   c6_baseline_positive cfg0 _ (by decide)
     (ReachableFrom.tick 1 500 (by decide) (ReachableFrom.button 3
       (ReachableFrom.knob 2 (ReachableFrom.boot 1))))⟩

/-! ## Knob handler lemmas for threshold calibration -/

theorem handleKnob_Mode (s : AutoPumpState) (change : Int) :
    (handleKnob s change).Mode = s.Mode := by
  simp only [handleKnob]
  split_ifs <;> rfl

theorem handleKnob_AutoMode (s : AutoPumpState) (change : Int) :
    (handleKnob s change).AutoMode = s.AutoMode := by
  simp only [handleKnob]
  split_ifs <;> rfl

theorem handleKnob_SavedConfig (s : AutoPumpState) (change : Int) :
    (handleKnob s change).SavedConfig = s.SavedConfig := by
  simp only [handleKnob]
  split_ifs <;> rfl

/-- In AutoStandby/CalibThreshold a single knob event leaves the threshold
clamped into [0, 100], with the knob counter re-synchronized to it. -/
theorem handleKnob_threshold_clamped (s : AutoPumpState) (change : Int)
    (hm : s.Mode = MODE_AUTO_STANDBY) (ha : s.AutoMode = AUTO_CALIB_THRESHOLD) :
    0 ≤ (handleKnob s change).AutoThreshold
    ∧ (handleKnob s change).AutoThreshold ≤ 100
    ∧ (handleKnob s change).Knob = (handleKnob s change).AutoThreshold := by
  simp only [handleKnob, hm, ha, MODE_TIMER_STANDBY, MODE_AUTO_STANDBY,
    AUTO_MODE_MENU, AUTO_CALIB_THRESHOLD]
  norm_num
  split_ifs <;> simp_all <;> omega

/-- `handleButton` in AutoStandby/CalibThreshold persists the current
threshold (the whole in-memory map, with `auto_threshold` updated, is
written back wholesale) and returns to the menu submode. -/
theorem handleButton_saves_threshold (s : AutoPumpState) (now : Int)
    (hm : s.Mode = MODE_AUTO_STANDBY) (ha : s.AutoMode = AUTO_CALIB_THRESHOLD) :
    (handleButton s now).SavedConfig =
      { s.Config with auto_threshold := some s.AutoThreshold }
    ∧ (handleButton s now).AutoMode = AUTO_MODE_MENU := by
  simp only [handleButton, hm, ha, MODE_TIMER_STANDBY, MODE_TIMER_PUMPING,
    MODE_AUTO_STANDBY, AUTO_MODE_MENU, AUTO_CALIB_THRESHOLD]
  norm_num

/-- Folding a list of knob deltas over the knob handler
(`EncoderKnob.rotary_callback` invocations in sequence). -/
def applyKnobs (s : AutoPumpState) (ds : List Int) : AutoPumpState :=
  ds.foldl handleKnob s

/-- Any nonempty knob-delta sequence in AutoStandby/CalibThreshold keeps
the threshold in [0,100], keeps mode and submode, and never touches the
persisted config store. -/
theorem applyKnobs_calib_invariant (s : AutoPumpState) (ds : List Int)
    (hm : s.Mode = MODE_AUTO_STANDBY) (ha : s.AutoMode = AUTO_CALIB_THRESHOLD)
    (hne : ds ≠ []) :
    (0 ≤ (applyKnobs s ds).AutoThreshold
     ∧ (applyKnobs s ds).AutoThreshold ≤ 100)
    ∧ (applyKnobs s ds).SavedConfig = s.SavedConfig
    ∧ (applyKnobs s ds).Mode = MODE_AUTO_STANDBY
    ∧ (applyKnobs s ds).AutoMode = AUTO_CALIB_THRESHOLD := by
  induction ds generalizing s with
  | nil => exact absurd rfl hne
  | cons d ds ih =>
    have hm1 : (handleKnob s d).Mode = MODE_AUTO_STANDBY := by
      rw [handleKnob_Mode]
      exact hm
    have ha1 : (handleKnob s d).AutoMode = AUTO_CALIB_THRESHOLD := by
      rw [handleKnob_AutoMode]
      exact ha
    have hstep : applyKnobs s (d :: ds) = applyKnobs (handleKnob s d) ds :=
      rfl
    rcases Decidable.em (ds = []) with hds | hds
    · subst hds
      have hcl := handleKnob_threshold_clamped s d hm ha
      exact ⟨⟨hcl.1, hcl.2.1⟩, handleKnob_SavedConfig s d, hm1, ha1⟩
    · have := ih (handleKnob s d) hm1 ha1 hds
      rw [hstep]
      exact ⟨this.1, by rw [this.2.1, handleKnob_SavedConfig],
             this.2.2.1, this.2.2.2⟩

/-- Claim C9 (confirmed): for every nonempty sequence of knob deltas
applied in AutoStandby/CalibThreshold the resulting AutoThreshold is in
[0,100] (out-of-range knob counters are re-seeded at the clamp bound), the
persistent config store is unchanged by knob motion alone, and a
subsequent button press is what writes the (clamped) threshold into the
persistent store. -/
theorem c9_threshold_clamped_persist (s : AutoPumpState) (ds : List Int)
    (hm : s.Mode = MODE_AUTO_STANDBY) (ha : s.AutoMode = AUTO_CALIB_THRESHOLD)
    (hne : ds ≠ []) :
    (0 ≤ (applyKnobs s ds).AutoThreshold
     ∧ (applyKnobs s ds).AutoThreshold ≤ 100)
    ∧ (applyKnobs s ds).SavedConfig = s.SavedConfig
    ∧ (∀ now, (handleButton (applyKnobs s ds) now).SavedConfig.auto_threshold
        = some ((applyKnobs s ds).AutoThreshold)) := by
  have h := applyKnobs_calib_invariant s ds hm ha hne
  refine ⟨h.1, h.2.1, fun now => ?_⟩
  rw [(handleButton_saves_threshold (applyKnobs s ds) now h.2.2.1
    h.2.2.2).1]

/-- Witness for C9: from the CalibThreshold screen (boot auto, knob +1,
button; knob seeded at 60) the delta sequence [50, −500, 700] drives the
counter out of range both ways; the resulting threshold is within
[0,100] and the store still holds the boot config. -/
theorem c9_threshold_clamped_persist_witness :
    0 ≤ (applyKnobs (handleButton (handleKnob (bootState cfg0 1) 1) 0)
      [50, -500, 700]).AutoThreshold
    ∧ (applyKnobs (handleButton (handleKnob (bootState cfg0 1) 1) 0)
      [50, -500, 700]).AutoThreshold ≤ 100
    ∧ (applyKnobs (handleButton (handleKnob (bootState cfg0 1) 1) 0)
      [50, -500, 700]).SavedConfig =
        (handleButton (handleKnob (bootState cfg0 1) 1) 0).SavedConfig :=
  ⟨(c9_threshold_clamped_persist (handleButton (handleKnob (bootState cfg0
      1) 1) 0) [50, -500, 700] (by decide) (by decide) (by decide)).1.1,
   (c9_threshold_clamped_persist (handleButton (handleKnob (bootState cfg0
      1) 1) 0) [50, -500, 700] (by decide) (by decide) (by decide)).1.2,
   (c9_threshold_clamped_persist (handleButton (handleKnob (bootState cfg0
      1) 1) 0) [50, -500, 700] (by decide) (by decide) (by decide)).2.1⟩
